import Mathlib

/-!
Verification of `FdmBlackScholesSolver`
(`ql/methods/finitedifferences/solvers/fdmblackscholessolver.cpp`,
QuantLib 1.2.1) against its natural-language specification.

The solver is shallowly embedded over the rationals. External
collaborators (the mesher layout, the payoff calculator, the backward
rollback, the natural logarithm and the monotonic cubic natural spline)
are abstracted as function parameters, since only their interfaces are
in scope; everything the solver itself computes is translated directly
from the source.
-/

namespace FdmBlackScholes

/-- Interface of a constructed interpolant (`CubicInterpolation`):
evaluation, first derivative and second derivative at a point, per the
external-interface section of the specification. -/
structure Interp where
  eval : ℚ → ℚ
  deriv : ℚ → ℚ
  secondDeriv : ℚ → ℚ

/-- Errors raised during a query.  `require` is a precondition check
performed by this core (a `QL_REQUIRE` in the solver source itself);
`external` is a failure propagated unchanged from a collaborator
(rollback, interpolant construction). -/
inductive QLError where
  | require (msg : String)
  | external (msg : String)
  deriving DecidableEq, Repr

/-- The mesher layout as seen by the solver: `layout()->size()` (total
number of grid points), `layout()->dim()[0]` (first-dimension point
count), and `location(iter, 0)` at the sequential index of the
iteration (`FdmLinearOpIterator` enumerates indices `0, 1, ...`). -/
structure FdmMesher where
  size : ℕ
  dim0 : ℕ
  loc : ℕ → ℚ

/-- The solver descriptor: mesher, the externally supplied step-condition
composite (represented by its ordered `stoppingTimes()` sequence), the
inner-value calculator `avgInnerValue(iter, t)`, maturity, time steps and
damping steps. -/
structure FdmSolverDesc where
  mesher : FdmMesher
  stoppingTimes : List ℚ
  calculator : ℕ → ℚ → ℚ
  maturity : ℚ
  timeSteps : ℕ
  dampingSteps : ℕ

/-- External collaborators used during a (re)calculation: `log` is the
natural logarithm applied to the spot; `spline` is the
`MonotonicCubicNaturalSpline` constructor over two sequences, which may
fail (for instance on non-monotonic abscissae); `rollback` is
`FdmBackwardSolver::rollback(rhs, from, to, steps, dampingSteps)`,
returning the rolled-back values and the values captured by the snapshot
condition firing during the pass, or a numerical failure. -/
structure Externals where
  log : ℚ → ℚ
  spline : List ℚ → List ℚ → Except String Interp
  rollback : List ℚ → ℚ → ℚ → ℕ → ℕ → Except String (List ℚ × List ℚ)

/-- `std::copy(src.begin(), src.end(), dest.begin())`: every element of
`src` is written over the beginning of `dest`.  When `src` is longer
than `dest` the result is longer than `dest`, modelling the writes past
the end of the destination. -/
def stdCopy (src dest : List ℚ) : List ℚ :=
  src ++ dest.drop src.length

/-- The Initial Value Vector built by the constructor: one slot per full
grid point (`initialValues_(mesher_->layout()->size())`), filled by
iterating the whole layout and storing
`solverDesc.calculator->avgInnerValue(iter, maturity)` at each index. -/
def mkInitialValues (d : FdmSolverDesc) : List ℚ :=
  (List.range d.mesher.size).map fun i => d.calculator i d.maturity

/-- The Coordinate Vector `x_` built by the constructor: the loop runs
over the whole layout and executes `x_.push_back(mesher_->location(iter, 0))`
at every point (the `reserve` call only sets capacity). -/
def mkX (d : FdmSolverDesc) : List ℚ :=
  (List.range d.mesher.size).map d.mesher.loc

/-- The snapshot trigger time passed to the `FdmSnapshotCondition`
constructor:
`0.99 * min(1/365, stoppingTimes.empty ? maturity : stoppingTimes.front)`. -/
def snapshotTriggerTime (d : FdmSolverDesc) : ℚ :=
  99/100 * min (1/365)
    (match d.stoppingTimes with
     | [] => d.maturity
     | t :: _ => t)

/-- Modelled from the spec: `FdmStepConditionComposite::joinConditions`
is not part of the sources; the specification states that the merged
composite exposes `stoppingTimes()` as an ordered sequence whose front
is the earliest.  Insertion of one time into an ordered sequence. -/
def insertTime (t : ℚ) : List ℚ → List ℚ
  | [] => [t]
  | u :: us => if t ≤ u then t :: u :: us else u :: insertTime t us

/-- Modelled from the spec: stopping times of the merged composite
`conditions_ = joinConditions(thetaCondition_, solverDesc.condition)` —
the snapshot trigger time merged into the externally supplied ordered
sequence. -/
def mergedStoppingTimes (d : FdmSolverDesc) : List ℚ :=
  insertTime (snapshotTriggerTime d) d.stoppingTimes

/-- The mutable state of a solver instance: the two vectors built at
construction, the Result Value Vector `resultValues_`, the cached
interpolant `interpolation_`, and the snapshot condition state
(`thetaCondition_->getValues()` / `getTime()`). -/
structure SolverState where
  initialValues : List ℚ
  resultValues : List ℚ
  x : List ℚ
  interp : Option Interp
  snapValues : List ℚ
  snapTime : ℚ

/-- The solver state at the end of construction: `initialValues_` and
`x_` filled by the layout loop, `resultValues_(mesher_->layout()->dim()[0])`
allocated (contents unspecified, modelled as zeros), no interpolant yet,
snapshot not yet captured, snapshot time fixed to the trigger time. -/
def mkSolverState (d : FdmSolverDesc) : SolverState :=
  { initialValues := mkInitialValues d
    resultValues := List.replicate d.mesher.dim0 0
    x := mkX d
    interp := none
    snapValues := []
    snapTime := snapshotTriggerTime d }

/-- `FdmBlackScholesSolver::performCalculations`: copy the initial
values into a fresh working vector `rhs`, roll it back from maturity to
time 0 (the snapshot condition fires during the pass and captures its
values), copy the whole of `rhs` into `resultValues_`, then build the
`MonotonicCubicNaturalSpline` over `(x_, resultValues_)`.  The returned
state reflects every mutation performed up to the point of a failure;
the second component is the propagated error, if any. -/
def performCalculations (E : Externals) (d : FdmSolverDesc) (s : SolverState) :
    SolverState × Option String :=
  match E.rollback s.initialValues d.maturity 0 d.timeSteps d.dampingSteps with
  | .error e => (s, some e)
  | .ok (rhs, snap) =>
    let s1 : SolverState :=
      { s with resultValues := stdCopy rhs s.resultValues, snapValues := snap }
    match E.spline s1.x s1.resultValues with
    | .error e => (s1, some e)
    | .ok interpNew => ({ s1 with interp := some interpNew }, none)

/-- Modelled from the spec: the lazy `calculate()` of the base class
(`LazyObject`, not part of the sources) reuses the cache when it is
valid and recomputes when it is stale; cache validity is represented by
the presence of the cached interpolant. -/
def calculate (E : Externals) (d : FdmSolverDesc) (s : SolverState) :
    SolverState × Option String :=
  match s.interp with
  | some _ => (s, none)
  | none => performCalculations E d s

/-- `valueAt(s)`: `calculate(); return interpolation_->operator()(std::log(s))`.
No check of the spot is performed by the source. -/
def valueAt (E : Externals) (d : FdmSolverDesc) (s : SolverState) (spot : ℚ) :
    Except QLError ℚ :=
  match calculate E d s with
  | (_, some e) => .error (.external e)
  | (s1, none) =>
    match s1.interp with
    | some I => .ok (I.eval (E.log spot))
    | none => .error (.external "missing interpolation")

/-- `deltaAt(s)`: `calculate(); return interpolation_->derivative(std::log(s))/s`. -/
def deltaAt (E : Externals) (d : FdmSolverDesc) (s : SolverState) (spot : ℚ) :
    Except QLError ℚ :=
  match calculate E d s with
  | (_, some e) => .error (.external e)
  | (s1, none) =>
    match s1.interp with
    | some I => .ok (I.deriv (E.log spot) / spot)
    | none => .error (.external "missing interpolation")

/-- `gammaAt(s)`: `calculate();
return (interpolation_->secondDerivative(std::log(s))
        - interpolation_->derivative(std::log(s)))/(s*s)`. -/
def gammaAt (E : Externals) (d : FdmSolverDesc) (s : SolverState) (spot : ℚ) :
    Except QLError ℚ :=
  match calculate E d s with
  | (_, some e) => .error (.external e)
  | (s1, none) =>
    match s1.interp with
    | some I => .ok ((I.secondDeriv (E.log spot) - I.deriv (E.log spot)) / (spot * spot))
    | none => .error (.external "missing interpolation")

/-- Message of the `QL_REQUIRE` guarding `thetaAt`. -/
def thetaErrMsg : String := "stopping time at zero - theta undefined"

/-- `thetaAt(s)`:
`QL_REQUIRE(conditions_->stoppingTimes().front() > 0.0, ...)` — the
check is on the merged composite and precedes every computation — then
`calculate()`, copy `thetaCondition_->getValues()` into an array sized
like `resultValues_`, build a second `MonotonicCubicNaturalSpline` over
`(x_, thetaValues)`, evaluate it at `log(s)`, and return
`(temp - valueAt(s)) / thetaCondition_->getTime()`. -/
def thetaAt (E : Externals) (d : FdmSolverDesc) (s : SolverState) (spot : ℚ) :
    Except QLError ℚ :=
  if 0 < (mergedStoppingTimes d).headD 0 then
    match calculate E d s with
    | (_, some e) => .error (.external e)
    | (s1, none) =>
      let thetaValues := stdCopy s1.snapValues (List.replicate s1.resultValues.length 0)
      match E.spline s1.x thetaValues with
      | .error e => .error (.external e)
      | .ok Isnap =>
        match valueAt E d s1 spot with
        | .error e => .error e
        | .ok v => .ok ((Isnap.eval (E.log spot) - v) / s1.snapTime)
  else .error (.require thetaErrMsg)

/-- One recalculation step, keeping only the resulting state. -/
def calcStep (E : Externals) (d : FdmSolverDesc) (s : SolverState) : SolverState :=
  (performCalculations E d s).1

/-! Concrete fixtures used by witnesses and counterexamples. -/

/-- A layout with two points in total but a single point along the
first dimension (total size exceeds the first-dimension size). -/
def mesher2x1 : FdmMesher :=
  { size := 2, dim0 := 1, loc := fun i => (i : ℚ) }

/-- A one-dimensional layout: total size equals the first-dimension size. -/
def mesher3 : FdmMesher :=
  { size := 3, dim0 := 3, loc := fun i => (i : ℚ) }

/-- A payoff calculator returning zero everywhere. -/
def calcZero : ℕ → ℚ → ℚ := fun _ _ => 0

/-- Descriptor over `mesher2x1`, no external stopping times, maturity one. -/
def desc2x1 : FdmSolverDesc :=
  { mesher := mesher2x1, stoppingTimes := [], calculator := calcZero,
    maturity := 1, timeSteps := 10, dampingSteps := 0 }

/-- Descriptor over `mesher3`, no external stopping times, maturity one. -/
def desc3 : FdmSolverDesc :=
  { mesher := mesher3, stoppingTimes := [], calculator := calcZero,
    maturity := 1, timeSteps := 10, dampingSteps := 0 }

/-- Descriptor with a maturity shorter than one calendar day. -/
def descShort : FdmSolverDesc :=
  { mesher := mesher3, stoppingTimes := [], calculator := calcZero,
    maturity := 1/730, timeSteps := 10, dampingSteps := 0 }

/-- Descriptor with a single external stopping time at one half. -/
def descHalf : FdmSolverDesc :=
  { mesher := mesher3, stoppingTimes := [1/2], calculator := calcZero,
    maturity := 1, timeSteps := 10, dampingSteps := 0 }

/-- The constant-zero interpolant. -/
def interpZero : Interp :=
  { eval := fun _ => 0, deriv := fun _ => 0, secondDeriv := fun _ => 0 }

/-- Collaborators that always succeed: identity logarithm, rollback
returning its input unchanged (and capturing it as the snapshot), spline
construction returning the zero interpolant. -/
def extId : Externals :=
  { log := fun q => q,
    spline := fun _ _ => .ok interpZero,
    rollback := fun v _ _ _ _ => .ok (v, v) }

/-! Theorems for the claims. -/

/-- Claim C1 (amended): construction pushes one coordinate for every
point of the full grid, so the Coordinate Vector has length equal to the
total layout size; it equals the first-dimension size exactly when the
two coincide (the one-dimensional case). -/
theorem mkX_length (d : FdmSolverDesc) :
    (mkX d).length = d.mesher.size ∧
    (d.mesher.size = d.mesher.dim0 → (mkX d).length = d.mesher.dim0) := by
  refine ⟨by simp [mkX], fun h => by simp [mkX, h]⟩

/-- Witness for `mkX_length` on the one-dimensional fixture `desc3`. -/
theorem mkX_length_witness : (mkX desc3).length = desc3.mesher.dim0 :=
  (mkX_length desc3).2 rfl

/-- Counterexample to claim C1 as stated: on a layout whose total size
is 2 with first-dimension size 1, the Coordinate Vector has length 2,
not the first-dimension size. -/
theorem mkX_length_counterexample : (mkX desc2x1).length ≠ desc2x1.mesher.dim0 := by
  decide

/-- Claim C2 (amended): the copy in `performCalculations` writes every
element of the rolled-back vector over the front of the Result Value
Vector; when the rolled-back vector has exactly the Result Value
Vector's length, the Result Value Vector becomes exactly that vector and
its length is unchanged (nothing outside it is written). -/
theorem performCalculations_copy (E : Externals) (d : FdmSolverDesc) (s : SolverState)
    (rhs snap : List ℚ)
    (hr : E.rollback s.initialValues d.maturity 0 d.timeSteps d.dampingSteps
            = .ok (rhs, snap))
    (hlen : rhs.length = s.resultValues.length) :
    (performCalculations E d s).1.resultValues = rhs ∧
    (performCalculations E d s).1.resultValues.length = s.resultValues.length := by
  have hcopy : stdCopy rhs s.resultValues = rhs := by
    simp [stdCopy, hlen]
  unfold performCalculations
  rw [hr]
  dsimp only
  rw [hcopy]
  cases E.spline s.x rhs <;> exact ⟨rfl, hlen⟩

/-- Witness for `performCalculations_copy` on the one-dimensional
fixture, where the rolled-back vector and the Result Value Vector both
have length 3. -/
theorem performCalculations_copy_witness :
    (performCalculations extId desc3 (mkSolverState desc3)).1.resultValues
      = mkInitialValues desc3 :=
  (performCalculations_copy extId desc3 (mkSolverState desc3)
    (mkInitialValues desc3) (mkInitialValues desc3) rfl rfl).1

/-- Counterexample to claim C2 as stated: with total size 2 and
first-dimension size 1 the copy writes 2 elements into the length-1
Result Value Vector, so after `performCalculations` its length is no
longer the first-dimension size — an element outside the vector was
written. -/
theorem performCalculations_copy_counterexample :
    (performCalculations extId desc2x1 (mkSolverState desc2x1)).1.resultValues.length
      ≠ desc2x1.mesher.dim0 := by
  decide

/-- Claim C4 (amended): the snapshot trigger time is
`0.99 * min(1/365, t_first)` with `t_first` the front stopping time, or
the maturity when there are none; with no stopping times it equals
`0.99/365` whenever the maturity is at least `1/365`, and with a front
stopping time of `1/2` it equals `0.99/365`. -/
theorem snapshotTriggerTime_eq (d : FdmSolverDesc) :
    (snapshotTriggerTime d = 99/100 * min (1/365) (d.stoppingTimes.headD d.maturity)) ∧
    (d.stoppingTimes = [] → 1/365 ≤ d.maturity → snapshotTriggerTime d = 99/36500) ∧
    (∀ rest : List ℚ, d.stoppingTimes = (1/2 : ℚ) :: rest →
      snapshotTriggerTime d = 99/36500) := by
  refine ⟨?_, ?_, ?_⟩
  · unfold snapshotTriggerTime
    cases h : d.stoppingTimes <;> simp [h]
  · intro h hm
    unfold snapshotTriggerTime
    rw [h]
    simp only [min_eq_left hm]
    norm_num
  · intro rest h
    unfold snapshotTriggerTime
    rw [h]
    have : min ((1 : ℚ)/365) (1/2) = 1/365 := by norm_num
    simp only [this]
    norm_num

/-- Witness for `snapshotTriggerTime_eq`: on `desc3` (no stopping
times, maturity one) and on `descHalf` (front stopping time one half)
the trigger time is `99/36500`. -/
theorem snapshotTriggerTime_eq_witness :
    snapshotTriggerTime desc3 = 99/36500 ∧ snapshotTriggerTime descHalf = 99/36500 :=
  ⟨(snapshotTriggerTime_eq desc3).2.1 rfl (by norm_num [desc3]),
   (snapshotTriggerTime_eq descHalf).2.2 [] rfl⟩

/-- Counterexample to claim C4 as stated: with no stopping times and a
maturity of `1/730`, the trigger time is `0.99/730`, not `0.99/365`. -/
theorem snapshotTriggerTime_counterexample :
    snapshotTriggerTime descShort ≠ 99/36500 := by
  unfold snapshotTriggerTime descShort
  norm_num

/-- One step of `performCalculations` changes neither `initialValues_`
nor `x_`, whatever the collaborators return. -/
theorem calcStep_frame (E : Externals) (d : FdmSolverDesc) (s : SolverState) :
    (calcStep E d s).initialValues = s.initialValues ∧ (calcStep E d s).x = s.x := by
  unfold calcStep performCalculations
  cases E.rollback s.initialValues d.maturity 0 d.timeSteps d.dampingSteps with
  | error e => exact ⟨rfl, rfl⟩
  | ok p =>
    obtain ⟨rhs, snap⟩ := p
    dsimp only
    cases E.spline s.x (stdCopy rhs s.resultValues) <;> exact ⟨rfl, rfl⟩

/-- Claim C10: after any number of recalculations the Initial Value
Vector and the Coordinate Vector are element-for-element what they were
at the end of construction — the rollback works on a fresh copy. -/
theorem performCalculations_preserves_construction (E : Externals) (d : FdmSolverDesc)
    (n : ℕ) (s : SolverState) :
    ((calcStep E d)^[n] s).initialValues = s.initialValues ∧
    ((calcStep E d)^[n] s).x = s.x := by
  induction n with
  | zero => exact ⟨rfl, rfl⟩
  | succ n ih =>
    rw [Function.iterate_succ_apply']
    exact ⟨(calcStep_frame E d _).1.trans ih.1, (calcStep_frame E d _).2.trans ih.2⟩

/-- A solver state whose cache is valid: the interpolant is present and
snapshot values of matching length are available. -/
def sReady : SolverState :=
  { initialValues := [0], resultValues := [0], x := [0], interp := some interpZero,
    snapValues := [0], snapTime := 99/36500 }

/-- When the cached interpolant is present, `calculate` reuses it and
performs no recomputation. -/
theorem calculate_cached (E : Externals) (d : FdmSolverDesc) (s : SolverState)
    (I : Interp) (hI : s.interp = some I) : calculate E d s = (s, none) := by
  simp [calculate, hI]

/-- Claim C7: with a valid cache, `valueAt` evaluates the interpolant at
the log of the spot, and `deltaAt` divides the log-space first
derivative by the spot. -/
theorem valueAt_deltaAt_formula (E : Externals) (d : FdmSolverDesc) (s : SolverState)
    (I : Interp) (spot : ℚ) (hI : s.interp = some I) (hs : 0 < spot) :
    valueAt E d s spot = .ok (I.eval (E.log spot)) ∧
    deltaAt E d s spot = .ok (I.deriv (E.log spot) / spot) := by
  constructor <;> simp [valueAt, deltaAt, calculate, hI]

/-- Witness for `valueAt_deltaAt_formula` at spot 1 on the cached state. -/
theorem valueAt_deltaAt_formula_witness :
    sReady.interp = some interpZero ∧ (0 : ℚ) < 1 ∧
    valueAt extId desc3 sReady 1 = .ok (interpZero.eval (extId.log 1)) :=
  ⟨rfl, one_pos, (valueAt_deltaAt_formula extId desc3 sReady interpZero 1 rfl one_pos).1⟩

/-- Claim C6: with a valid cache, `gammaAt` returns the log-space second
derivative minus the first derivative, divided by the square of the
spot. -/
theorem gammaAt_formula (E : Externals) (d : FdmSolverDesc) (s : SolverState)
    (I : Interp) (spot : ℚ) (hI : s.interp = some I) (hs : 0 < spot) :
    gammaAt E d s spot
      = .ok ((I.secondDeriv (E.log spot) - I.deriv (E.log spot)) / spot ^ 2) := by
  simp [gammaAt, calculate, hI, pow_two]

/-- Witness for `gammaAt_formula` at spot 1 on the cached state. -/
theorem gammaAt_formula_witness :
    sReady.interp = some interpZero ∧ (0 : ℚ) < 1 ∧
    gammaAt extId desc3 sReady 1
      = .ok ((interpZero.secondDeriv (extId.log 1) - interpZero.deriv (extId.log 1)) / 1 ^ 2) :=
  ⟨rfl, one_pos, gammaAt_formula extId desc3 sReady interpZero 1 rfl one_pos⟩

/-- `valueAt` never raises a precondition (`require`) error: the source
contains no check at all in `valueAt`. -/
theorem valueAt_no_require (E : Externals) (d : FdmSolverDesc) (s : SolverState)
    (spot : ℚ) (msg : String) : valueAt E d s spot ≠ .error (.require msg) := by
  unfold valueAt
  rcases calculate E d s with ⟨s1, e⟩
  cases e with
  | none => cases h1 : s1.interp <;> simp [h1]
  | some e => simp

/-- With the stopping-time check passing, `thetaAt` never raises a
precondition (`require`) error either: every later failure is a
propagated collaborator failure. -/
theorem thetaAt_no_require (E : Externals) (d : FdmSolverDesc) (s : SolverState)
    (spot : ℚ) (hfront : 0 < (mergedStoppingTimes d).headD 0) (msg : String) :
    thetaAt E d s spot ≠ .error (.require msg) := by
  unfold thetaAt
  rw [if_pos hfront]
  rcases calculate E d s with ⟨s1, e⟩
  cases e with
  | some e => simp
  | none =>
    dsimp only
    cases E.spline s1.x (stdCopy s1.snapValues (List.replicate s1.resultValues.length 0)) with
    | error e => simp
    | ok Isnap =>
      cases hv : valueAt E d s1 spot with
      | ok v => simp
      | error e =>
        cases e with
        | require m =>
          exact absurd hv (valueAt_no_require E d s1 spot m)
        | external m => simp

/-- Claim C8 (amended): no query validates the spot.  With a valid
cache, `valueAt`, `deltaAt` and `gammaAt` return their interpolant
formulas unchanged even for a non-positive spot (the logarithm is simply
applied to it), and `thetaAt` raises no precondition error for a
non-positive spot once its stopping-time check passes. -/
theorem queries_no_spot_check (E : Externals) (d : FdmSolverDesc) (s : SolverState)
    (I : Interp) (spot : ℚ) (hI : s.interp = some I) (hs : spot ≤ 0) :
    valueAt E d s spot = .ok (I.eval (E.log spot)) ∧
    deltaAt E d s spot = .ok (I.deriv (E.log spot) / spot) ∧
    gammaAt E d s spot
      = .ok ((I.secondDeriv (E.log spot) - I.deriv (E.log spot)) / (spot * spot)) ∧
    (0 < (mergedStoppingTimes d).headD 0 →
      ∀ msg, thetaAt E d s spot ≠ .error (.require msg)) := by
  refine ⟨?_, ?_, ?_, fun hfront msg => thetaAt_no_require E d s spot hfront msg⟩ <;>
    simp [valueAt, deltaAt, gammaAt, calculate, hI]

/-- Witness for `queries_no_spot_check` at spot `-1` on the cached state. -/
theorem queries_no_spot_check_witness :
    sReady.interp = some interpZero ∧ (-1 : ℚ) ≤ 0 ∧
    valueAt extId desc3 sReady (-1) = .ok (interpZero.eval (extId.log (-1))) :=
  ⟨rfl, neg_one_lt_zero.le,
   (queries_no_spot_check extId desc3 sReady interpZero (-1) rfl neg_one_lt_zero.le).1⟩

/-- Counterexample to claim C8 as stated: at the non-positive spot `-1`
`valueAt` succeeds with the interpolated value instead of reporting a
precondition-violation error. -/
theorem valueAt_nonpositive_spot_counterexample :
    valueAt extId desc3 sReady (-1) = .ok 0 := rfl

/-- Collaborators whose spline construction fails. -/
def extSplineFail : Externals :=
  { log := fun q => q,
    spline := fun _ _ => .error "non-monotonic x",
    rollback := fun v _ _ _ _ => .ok (v, v) }

/-- Collaborators whose rollback fails. -/
def extRollbackFail : Externals :=
  { log := fun q => q,
    spline := fun _ _ => .ok interpZero,
    rollback := fun _ _ _ _ _ => .error "rollback failure" }

/-- A state holding a previously computed result value. -/
def sPre : SolverState :=
  { initialValues := [1], resultValues := [0], x := [0], interp := none,
    snapValues := [], snapTime := 1 }

/-- Claim C9 (amended): when the rollback itself fails, the whole state
— in particular the Result Value Vector and the cached Interpolant — is
exactly as before.  When the rollback succeeds and the interpolant
construction fails, the old Interpolant is kept but the Result Value
Vector has already been overwritten with the rolled-back values. -/
theorem performCalculations_failure_frame (E : Externals) (d : FdmSolverDesc)
    (s : SolverState) :
    (∀ e, E.rollback s.initialValues d.maturity 0 d.timeSteps d.dampingSteps = .error e →
        performCalculations E d s = (s, some e)) ∧
    (∀ rhs snap e,
        E.rollback s.initialValues d.maturity 0 d.timeSteps d.dampingSteps = .ok (rhs, snap) →
        E.spline s.x (stdCopy rhs s.resultValues) = .error e →
        (performCalculations E d s).1.interp = s.interp ∧
        (performCalculations E d s).1.resultValues = stdCopy rhs s.resultValues ∧
        (performCalculations E d s).2 = some e) := by
  constructor
  · intro e he
    unfold performCalculations
    rw [he]
  · intro rhs snap e hr hsp
    unfold performCalculations
    rw [hr]
    dsimp only
    rw [hsp]
    exact ⟨rfl, rfl, rfl⟩

/-- Witness for `performCalculations_failure_frame`: a failing rollback
returns the untouched state together with the propagated error. -/
theorem performCalculations_failure_frame_witness :
    performCalculations extRollbackFail desc3 sPre = (sPre, some "rollback failure") :=
  (performCalculations_failure_frame extRollbackFail desc3 sPre).1 "rollback failure" rfl

/-- Counterexample to claim C9 as stated: when the interpolant
construction fails after a successful rollback, the recalculation
reports the failure but the Result Value Vector has already been
changed — the previously cached value `[0]` was replaced by `[1]`. -/
theorem performCalculations_atomicity_counterexample :
    (performCalculations extSplineFail desc3 sPre).2 = some "non-monotonic x" ∧
    (performCalculations extSplineFail desc3 sPre).1.resultValues ≠ sPre.resultValues := by
  refine ⟨rfl, ?_⟩
  intro h
  simp [performCalculations, extSplineFail, sPre, stdCopy] at h

/-- Head of an ordered insertion into a non-empty sequence is the
minimum of the inserted time and the old head. -/
theorem insertTime_headD_cons (t u : ℚ) (us : List ℚ) (z : ℚ) :
    (insertTime t (u :: us)).headD z = min t u := by
  by_cases h : t ≤ u <;> simp [insertTime, h, min_def]

/-- The front of the merged stopping-time sequence is positive exactly
when the front of the original sequence is not zero, given a positive
maturity and nonnegative stopping times. -/
theorem mergedFront_pos_iff (d : FdmSolverDesc) (hm : 0 < d.maturity)
    (hnn : ∀ t ∈ d.stoppingTimes, 0 ≤ t) :
    (0 < (mergedStoppingTimes d).headD 0 ↔ d.stoppingTimes.head? ≠ some 0) := by
  cases h : d.stoppingTimes with
  | nil =>
    have hpos : 0 < snapshotTriggerTime d := by
      simp only [snapshotTriggerTime, h]
      exact mul_pos (by norm_num) (lt_min (by norm_num) hm)
    simp [mergedStoppingTimes, h, insertTime, hpos]
  | cons t ts =>
    have ht : 0 ≤ t := hnn t (h ▸ List.mem_cons_self t ts)
    have hsnap : snapshotTriggerTime d = 99/100 * min (1/365) t := by
      simp only [snapshotTriggerTime, h]
    rw [mergedStoppingTimes, h, insertTime_headD_cons, hsnap]
    rcases eq_or_lt_of_le ht with h0 | h0
    · rw [← h0]
      norm_num
    · have hsn : (0 : ℚ) < 99/100 * min (1/365) t :=
        mul_pos (by norm_num) (lt_min (by norm_num) h0)
      simp [lt_min_iff, hsn, h0, h0.ne']

/-- Claim C3: for every spot, `thetaAt` fails with its precondition
(domain) error exactly when the earliest stopping time of the original,
unmerged condition set is zero (the sortedness hypothesis makes the
front of the sequence its earliest element); in the failing case the
result is the fixed error for every collaborator set and every solver
state — the check precedes any calculation. -/
theorem thetaAt_domain_error (d : FdmSolverDesc)
    (hm : 0 < d.maturity)
    (hsorted : List.Sorted (fun a b : ℚ => a ≤ b) d.stoppingTimes)
    (hnn : ∀ t ∈ d.stoppingTimes, 0 ≤ t) :
    ∀ (E : Externals) (s : SolverState) (spot : ℚ),
      ((∃ msg, thetaAt E d s spot = .error (.require msg)) ↔
        d.stoppingTimes.head? = some 0) ∧
      (d.stoppingTimes.head? = some 0 →
        thetaAt E d s spot = .error (.require thetaErrMsg)) := by
  intro E s spot
  have key := mergedFront_pos_iff d hm hnn
  by_cases h0 : d.stoppingTimes.head? = some 0
  · have hneg : ¬ 0 < (mergedStoppingTimes d).headD 0 := by
      rw [key]
      exact fun hc => hc h0
    have hthm : thetaAt E d s spot = .error (.require thetaErrMsg) := by
      unfold thetaAt
      rw [if_neg hneg]
    exact ⟨⟨fun _ => h0, fun _ => ⟨thetaErrMsg, hthm⟩⟩, fun _ => hthm⟩
  · have hpos : 0 < (mergedStoppingTimes d).headD 0 := key.mpr h0
    exact ⟨⟨fun ⟨msg, hmsg⟩ => absurd hmsg (thetaAt_no_require E d s spot hpos msg),
            fun hc => absurd hc h0⟩,
           fun hc => absurd hc h0⟩

/-- Descriptor whose external condition set has its earliest stopping
time at zero. -/
def descZeroStop : FdmSolverDesc :=
  { mesher := mesher3, stoppingTimes := [0], calculator := calcZero,
    maturity := 1, timeSteps := 10, dampingSteps := 0 }

/-- Witness for `thetaAt_domain_error`: with a stopping time at zero,
`thetaAt` reports the domain error. -/
theorem thetaAt_domain_error_witness :
    thetaAt extId descZeroStop sPre 1 = .error (.require thetaErrMsg) :=
  (thetaAt_domain_error descZeroStop one_pos (List.sorted_singleton 0)
    (by simp [descZeroStop]) extId sPre 1).2 rfl

/-- Claim C5: when the stopping-time check passes and the snapshot has
the Result Value Vector's length, `thetaAt` builds a second interpolant
over the Coordinate Vector and the snapshot values, evaluates it at the
log of the spot, subtracts the value returned by `valueAt`, and divides
by the captured snapshot time. -/
theorem thetaAt_formula (E : Externals) (d : FdmSolverDesc) (s : SolverState)
    (I Isnap : Interp) (spot v : ℚ)
    (hfront : 0 < (mergedStoppingTimes d).headD 0)
    (hI : s.interp = some I)
    (hlen : s.snapValues.length = s.resultValues.length)
    (hspline : E.spline s.x s.snapValues = .ok Isnap)
    (hv : valueAt E d s spot = .ok v) :
    thetaAt E d s spot = .ok ((Isnap.eval (E.log spot) - v) / s.snapTime) := by
  have hdrop : (List.replicate s.resultValues.length (0 : ℚ)).drop s.snapValues.length
      = [] := by
    apply List.drop_eq_nil_of_le
    simp [hlen]
  have hcopy : stdCopy s.snapValues (List.replicate s.resultValues.length 0)
      = s.snapValues := by
    simp [stdCopy, hdrop]
  unfold thetaAt
  rw [if_pos hfront]
  simp only [calculate_cached E d s I hI, hcopy, hspline, hv]

/-- Witness for `thetaAt_formula` at spot 1 on the cached state. -/
theorem thetaAt_formula_witness :
    thetaAt extId desc3 sReady 1
      = .ok ((interpZero.eval (extId.log 1) - 0) / sReady.snapTime) :=
  thetaAt_formula extId desc3 sReady interpZero interpZero 1 0
    (by norm_num [mergedStoppingTimes, insertTime, snapshotTriggerTime, desc3])
    rfl rfl rfl rfl

end FdmBlackScholes
